import Mathlib

/-
  Verification of the smart-garden-api server core against its specification.

  Shallow embedding of the relevant parts of the source:
  - helpers.js            : moistureToPercentage
  - index file (latest)   : the HTTP handlers for PUT /config, POST /upload-image,
                            GET /current-measurements, GET /online-nodes,
                            GET /subscription (threshold evaluation) and
                            POST /subscription (bulk notify).

  Influx query results are modelled as the list of result rows
  (field name, value) that the handler iterates over; the sqlite-backed
  sequelize stores are modelled as lists of records.  JavaScript numbers
  are modelled as rationals, Math.round as Mathlib round (both are
  floor (x + 1/2)), and JavaScript truthiness of a numeric value as the
  value being present and nonzero.
-/

namespace SmartGarden

/-- helpers.js moistureToPercentage: raw ≤ 1500 → 100, raw ≥ 3000 → 0,
    otherwise Math.round(200 - raw / 15). -/
def moistureToPercentage (moisture : ℚ) : ℤ :=
  if moisture ≤ 1500 then 100
  else if moisture ≥ 3000 then 0
  else round (200 - moisture / 15)

/-- moistureToPercentage as a number-to-number map, as the handlers use it
    when storing the normalized value back into a result object. -/
def normalizeQ (v : ℚ) : ℚ := ((moistureToPercentage v : ℤ) : ℚ)

/-- One row of an Influx query result, as iterated by the handlers:
    the row's _field and _value. -/
abbrev Row := String × ℚ

/-- A JavaScript object used as a field→value dictionary (`result` / `entry.fields`
    in the handlers): insertion-ordered key set plus the lookup function. -/
structure JsMap where
  keys : List String
  get : String → Option ℚ

def JsMap.empty : JsMap := ⟨[], fun _ => none⟩

/-- Assignment obj[k] = v on a JavaScript object. -/
def JsMap.set (m : JsMap) (k : String) (v : ℚ) : JsMap :=
  ⟨if k ∈ m.keys then m.keys else m.keys ++ [k],
   fun g => if g = k then some v else m.get g⟩

/-- Loop body of GET /current-measurements and GET /subscription:
    result[row._field] = row._value, and when the row is the moisture field
    the freshly stored value is replaced by its normalization. -/
def curStep (m : JsMap) (r : Row) : JsMap :=
  let m1 := m.set r.1 r.2
  if r.1 = "moisture" then m1.set "moisture" (normalizeQ r.2) else m1

/-- The whole result-building loop of GET /current-measurements and
    GET /subscription over the rows returned for one measurement. -/
def processRows (rows : List Row) : JsMap := rows.foldl curStep JsMap.empty

/-- Loop body of GET /online-nodes: entry.fields[row._field] = row._value,
    then, whenever entry.fields.moisture is truthy (present and nonzero),
    it is replaced by its normalization -- for any row's field. -/
def onlineStep (m : JsMap) (r : Row) : JsMap :=
  let m1 := m.set r.1 r.2
  match m1.get "moisture" with
  | some v => if v ≠ 0 then m1.set "moisture" (normalizeQ v) else m1
  | none => m1

/-- The fields object built by GET /online-nodes for one measurement's rows. -/
def onlineProcessRows (rows : List Row) : JsMap := rows.foldl onlineStep JsMap.empty

/-- The value the dictionary loops leave for a field: the value of the last
    row carrying that field, if any. -/
def lastFieldValue (f : String) : List Row → Option ℚ
  | [] => none
  | r :: rs =>
    match lastFieldValue f rs with
    | some v => some v
    | none => if r.1 = f then some r.2 else none

/-- The error outcomes the handlers map to HTTP statuses:
    validation → 400, notFound → 404, internal → 500. -/
inductive ApiError
  | validation
  | notFound
  | internal
deriving DecidableEq

/-- A row of the sqlite config table (sequelize model Config). -/
structure DeviceConfig where
  id : String
  name : String
  version : ℤ
  interval : ℤ
  led_state : Bool
  imagePath : Option String
  soilMoistureThreshold : Option ℤ
deriving DecidableEq

/-- The JSON body accepted by PUT /config; every field may be absent.
    (Sequelize uses the whole body as the defaults of findOrCreate.) -/
structure ConfigBody where
  name : Option String
  version : Option ℤ
  interval : Option ℤ
  led_state : Option Bool
  imagePath : Option String
  soilMoistureThreshold : Option ℤ
deriving DecidableEq

/-- JavaScript loose inequality of a stored number against a possibly absent
    incoming body field (absent compares unequal). -/
def neqLooseInt (stored : ℤ) (incoming : Option ℤ) : Bool :=
  match incoming with
  | none => true
  | some i => decide (stored ≠ i)

/-- JavaScript loose inequality of a stored boolean against a possibly absent
    incoming body field (absent compares unequal). -/
def neqLooseBool (stored : Bool) (incoming : Option Bool) : Bool :=
  match incoming with
  | none => true
  | some b => decide (stored ≠ b)

/-- PUT /config.  The query id is modelled as already trimmed (the source
    trims surrounding whitespace; no claim concerns whitespace in ids).
    findOrCreate: an existing row is updated in place -- version bumped by 1
    exactly when the incoming interval or led_state differs -- and name,
    interval, led_state and soilMoistureThreshold are overwritten; a missing
    row is created from the body (NOT NULL columns must all be supplied,
    otherwise sequelize rejects the write and the handler answers 500).
    The Bool of the result is the created flag (201 vs 204). -/
def putConfig (store : List DeviceConfig) (qid : Option String) (body : Option ConfigBody) :
    Except ApiError (List DeviceConfig × Bool) :=
  match qid with
  | none => .error .validation
  | some id =>
    if id = "" then .error .validation
    else
      match body with
      | none => .error .validation
      | some b =>
        match store.find? (fun c => decide (c.id = id)) with
        | some item =>
          match b.name, b.interval, b.led_state with
          | some n, some i, some l =>
            let v :=
              if neqLooseInt item.interval b.interval || neqLooseBool item.led_state b.led_state
              then item.version + 1 else item.version
            let item2 : DeviceConfig :=
              { item with
                  name := n, version := v, interval := i, led_state := l,
                  soilMoistureThreshold := b.soilMoistureThreshold }
            .ok (store.map (fun c => if c.id = id then item2 else c), false)
          | _, _, _ => .error .internal
        | none =>
          match b.name, b.version, b.interval, b.led_state with
          | some n, some v, some i, some l =>
            .ok (store ++ [{ id := id, name := n, version := v, interval := i,
                             led_state := l, imagePath := b.imagePath,
                             soilMoistureThreshold := b.soilMoistureThreshold }], true)
          | _, _, _, _ => .error .internal

/-- POST /upload-image: requires a file and a (truthy) body id; builds the
    image path from the stored file name; if a config with that id exists its
    imagePath is overwritten, otherwise nothing is stored -- either way the
    handler answers 200 with the image path. -/
def uploadImage (store : List DeviceConfig) (hasFile : Bool) (bodyId : Option String)
    (filename : String) : Except ApiError (List DeviceConfig × String) :=
  match hasFile, bodyId with
  | false, _ => .error .validation
  | true, none => .error .validation
  | true, some bid =>
    if bid = "" then .error .validation
    else
      let imagePath := "/uploads/" ++ filename
      .ok (store.map (fun c => if c.id = bid then { c with imagePath := some imagePath } else c),
           imagePath)

/-- GET /current-measurements: builds the latest field→value object from the
    rows the 48h-window last() query returned for the id; an empty object
    (no rows, hence no keys) is answered 404. -/
def currentMeasurements (qid : Option String) (rows : List Row) :
    Except ApiError JsMap :=
  match qid with
  | none => .error .validation
  | some id =>
    if id = "" then .error .validation
    else
      let result := processRows rows
      if result.keys.isEmpty then .error .notFound else .ok result

/-- The push message assembled by GET /subscription. -/
structure PushMessage where
  title : String
  body : String
  icon : String
deriving DecidableEq

/-- The response of GET /subscription. -/
structure ThresholdResult where
  thresholdsReached : Bool
  message : PushMessage
deriving DecidableEq

/-- The alert text of GET /subscription (the source appends a seedling emoji). -/
def alertBody : String := "Water me, please!"

/-- GET /subscription (threshold evaluation for one node): builds the latest
    normalized field object for the node, looks the node's config up (404 when
    absent), and reports thresholdsReached when the stored threshold is truthy
    and the moisture value is above 5 and at most the threshold; the message
    body is the alert text exactly when the threshold was reached. -/
def subscriptionGet (store : List DeviceConfig) (nodeId : Option String)
    (rows : List Row) : Except ApiError ThresholdResult :=
  match nodeId with
  | none => .error .validation
  | some nid =>
    if nid = "" then .error .validation
    else
      let result := processRows rows
      match store.find? (fun c => decide (c.id = nid)) with
      | none => .error .notFound
      | some config =>
        let reached :=
          match config.soilMoistureThreshold, result.get "moisture" with
          | some t, some mv => decide (t ≠ 0) && decide (mv > 5) && decide (mv ≤ (t : ℚ))
          | _, _ => false
        .ok { thresholdsReached := reached,
              message := { title := config.name,
                           body := if reached then alertBody else "",
                           icon := "/icon.svg" } }

/-- The per-measurement entry GET /online-nodes builds from the latest-sample
    rows before joining it against the config store. -/
structure NodeEntry where
  id : String
  fields : JsMap

/-- The configuration part GET /online-nodes merges into an entry whose id has
    a config row. -/
structure NodeView where
  id : String
  name : String
  imageUrl : Option String
  showWarning : Bool
deriving DecidableEq

/-- The showWarning computation of GET /online-nodes: the guard requires the
    stored threshold and the entry's moisture value to be truthy (present and
    nonzero), and then warns when threshold ≥ moisture. -/
def showWarningOf (item : DeviceConfig) (fields : JsMap) : Bool :=
  match item.soilMoistureThreshold, fields.get "moisture" with
  | some t, some mv => decide (t ≠ 0) && decide (mv ≠ 0) && decide ((t : ℚ) ≥ mv)
  | _, _ => false

/-- The config join of GET /online-nodes for one entry: a device with rows but
    no config row is only logged and gets no name/imageUrl/showWarning
    (modelled as none). -/
def onlineJoin (store : List DeviceConfig) (apiDomain : String) (entry : NodeEntry) :
    Option NodeView :=
  match store.find? (fun c => decide (c.id = entry.id)) with
  | some item =>
    some { id := entry.id, name := item.name,
           imageUrl := match item.imagePath with
                       | some p => some (apiDomain ++ p)
                       | none => none,
           showWarning := showWarningOf item entry.fields }
  | none => none

/-- A row of the sqlite subscription table (sequelize model Subscription);
    lastSent in milliseconds since the epoch, null when never sent. -/
structure Sub where
  id : String
  data : String
  lastSent : Option ℤ
deriving DecidableEq

/-- The bulk-notify throttle window: 3 hours, in seconds. -/
def waitPeriodInSeconds : ℚ := 3 * 3600

/-- secondsSinceLastSend of POST /subscription: milliseconds since the
    subscription's lastSent (the epoch when never sent), divided by 1000. -/
def secondsSinceLastSend (now : ℤ) (s : Sub) : ℚ :=
  (((now : ℚ)) - ((s.lastSent.getD 0 : ℤ) : ℚ)) / 1000

/-- The per-subscription body of POST /subscription's Promise.all: skip inside
    the wait window; otherwise attempt delivery (deliverOk abstracts the
    webpush transport together with JSON.parse of the stored blob) and update
    lastSent to the attempt time only when the delivery succeeded -- the throw
    of a failed delivery skips the lastSent assignment.  Returns the resulting
    row and whether a delivery was attempted. -/
def bulkNotifyStep (now : ℤ) (deliverOk : Sub → Bool) (s : Sub) : Sub × Bool :=
  if secondsSinceLastSend now s < waitPeriodInSeconds then (s, false)
  else if deliverOk s then ({ s with lastSent := some now }, true)
  else (s, true)

/-- The subscription selection of POST /subscription: the ids parameter must
    be an array (otherwise 400); a nonempty array selects the stored
    subscriptions with those ids, an empty array selects all of them. -/
def selectTargets (store : List Sub) (ids : Option (List String)) :
    Except ApiError (List Sub) :=
  match ids with
  | none => .error .validation
  | some l => .ok (if l.isEmpty then store else store.filter (fun s => l.contains s.id))

/-- POST /subscription: validates ids and message, selects the targeted
    subscriptions (404 when none), runs bulkNotifyStep on each of them, and
    returns the updated store together with the ids whose delivery was
    attempted. -/
def notifyMany (store : List Sub) (ids : Option (List String)) (message : Option String)
    (now : ℤ) (deliverOk : Sub → Bool) : Except ApiError (List Sub × List String) :=
  match ids with
  | none => .error .validation
  | some l =>
    match message with
    | none => .error .validation
    | some _ =>
      let targeted := if l.isEmpty then store else store.filter (fun s => l.contains s.id)
      if targeted.isEmpty then .error .notFound
      else
        let attempted :=
          ((targeted.map (fun s => bulkNotifyStep now deliverOk s)).filter
            (fun p => p.2)).map (fun p => p.1.id)
        let store2 := store.map (fun s =>
          if l.isEmpty || l.contains s.id then (bulkNotifyStep now deliverOk s).1 else s)
        .ok (store2, attempted)

/-! ### Shared helper lemmas -/

/-- The result of moistureToPercentage always lies in [0, 100]. -/
lemma moistureToPercentage_nonneg_le (x : ℚ) :
    0 ≤ moistureToPercentage x ∧ moistureToPercentage x ≤ 100 := by
  unfold moistureToPercentage
  split
  · exact ⟨by norm_num, le_refl _⟩
  · split
    · exact ⟨le_refl _, by norm_num⟩
    · rename_i h1 h2
      have hx1 : (1500 : ℚ) < x := not_le.mp h1
      have hx2 : x < 3000 := not_le.mp h2
      have h15 : (0 : ℚ) < 15 := by norm_num
      have hlo : (100 : ℚ) < x / 15 := by rw [lt_div_iff₀ h15]; linarith
      have hhi : x / 15 < 200 := by rw [div_lt_iff₀ h15]; linarith
      rw [round_eq]
      constructor
      · exact Int.floor_nonneg.mpr (by linarith)
      · have hlt : ⌊200 - x / 15 + 1 / 2⌋ < (101 : ℤ) :=
          Int.floor_lt.mpr (by push_cast; linarith)
        omega

/-- Below the lower cutoff the function is the constant 100. -/
lemma moistureToPercentage_low {x : ℚ} (h : x ≤ 1500) : moistureToPercentage x = 100 := by
  unfold moistureToPercentage
  rw [if_pos h]

/-- On the open interval the function is exactly the rounded linear formula. -/
lemma moistureToPercentage_mid {x : ℚ} (h1 : 1500 < x) (h2 : x < 3000) :
    moistureToPercentage x = round (200 - x / 15) := by
  unfold moistureToPercentage
  rw [if_neg (not_le.mpr h1), if_neg (not_le.mpr h2)]

/-! ### C5 — piecewise contract of the moisture normalizer -/

/-- C5 as stated is false: 1501 lies in the open interval (1500, 3000), the
    formula round(200 - 1501/15) applies, and its value is exactly 100 -- not
    strictly between 0 and 100. -/
theorem c5_counterexample :
    (1500 : ℚ) < 1501 ∧ (1501 : ℚ) < 3000 ∧
    moistureToPercentage 1501 = round ((200 : ℚ) - 1501 / 15) ∧
    moistureToPercentage 1501 = 100 ∧ ¬ moistureToPercentage 1501 < 100 := by
  refine ⟨by norm_num, by norm_num, ?_, ?_, ?_⟩ <;>
    norm_num [moistureToPercentage, round_eq]

/-- C5 (amended): moistureToPercentage returns exactly 100 when x ≤ 1500,
    exactly 0 when x ≥ 3000, and round(200 - x/15) when 1500 < x < 3000; on
    the open interval the result lies between 0 and 100 inclusive (the
    endpoints are attained, e.g. at 1501 and 2999, so the bounds are not
    strict). -/
theorem c5_normalize_piecewise_amended (x : ℚ) :
    (x ≤ 1500 → moistureToPercentage x = 100) ∧
    (3000 ≤ x → moistureToPercentage x = 0) ∧
    (1500 < x → x < 3000 →
      moistureToPercentage x = round (200 - x / 15) ∧
      0 ≤ moistureToPercentage x ∧ moistureToPercentage x ≤ 100) := by
  refine ⟨fun h => ?_, fun h => ?_, fun h1 h2 => ?_⟩
  · unfold moistureToPercentage
    rw [if_pos h]
  · unfold moistureToPercentage
    rw [if_neg (not_le.mpr (by linarith)), if_pos h]
  · exact ⟨moistureToPercentage_mid h1 h2, (moistureToPercentage_nonneg_le x).1,
      (moistureToPercentage_nonneg_le x).2⟩

/-- Witness for C5 (amended) at the concrete raw value 2000. -/
theorem c5_witness :
    (1500 : ℚ) < 2000 ∧ (2000 : ℚ) < 3000 ∧
    (moistureToPercentage 2000 = round ((200 : ℚ) - 2000 / 15) ∧
      0 ≤ moistureToPercentage 2000 ∧ moistureToPercentage 2000 ≤ 100) :=
  ⟨by norm_num, by norm_num,
    (c5_normalize_piecewise_amended 2000).2.2 (by norm_num) (by norm_num)⟩

/-! ### C10 — double normalization in GET /online-nodes -/

/-- C10 as stated is false at its handler-consequence half: for the raw
    reading 3000 the once-normalized moisture is 0, which is falsy, so the
    truthiness guard never renormalizes it -- the device whose later
    temperature row is processed after the moisture row reports moisture 0,
    not 100. -/
theorem c10_counterexample :
    (onlineProcessRows [("moisture", 3000), ("temperature", 20)]).get "moisture" = some 0 ∧
    some (0 : ℚ) ≠ some (100 : ℚ) := by
  constructor
  · decide
  · decide

/-- C10 (amended): moistureToPercentage of any of its own outputs is exactly
    100 (every output lies in [0,100], and every input ≤ 1500 maps to 100);
    in the online-nodes loop, a row for another field processed while the
    fields object holds a nonzero (truthy) normalized moisture value
    renormalizes it to exactly 100 -- but a normalized moisture of 0 is falsy
    and is left untouched, so the re-normalization to 100 is not
    unconditional. -/
theorem c10_double_normalize_amended :
    (∀ x : ℚ, moistureToPercentage ((moistureToPercentage x : ℤ) : ℚ) = 100) ∧
    (∀ (m : JsMap) (x : ℚ) (r : Row), r.1 ≠ "moisture" →
      m.get "moisture" = some ((moistureToPercentage x : ℤ) : ℚ) →
      ((moistureToPercentage x : ℤ) : ℚ) ≠ 0 →
      (onlineStep m r).get "moisture" = some 100) := by
  have hall : ∀ x : ℚ, moistureToPercentage ((moistureToPercentage x : ℤ) : ℚ) = 100 := by
    intro x
    have hb := (moistureToPercentage_nonneg_le x).2
    have hc : ((moistureToPercentage x : ℤ) : ℚ) ≤ 1500 := by
      have h100 : ((moistureToPercentage x : ℤ) : ℚ) ≤ 100 := by exact_mod_cast hb
      linarith
    exact moistureToPercentage_low hc
  refine ⟨hall, fun m x r hr hm hnz => ?_⟩
  have h1 : (m.set r.1 r.2).get "moisture" = m.get "moisture" := by
    show (if "moisture" = r.1 then some r.2 else m.get "moisture") = m.get "moisture"
    rw [if_neg (fun h => hr h.symm)]
  unfold onlineStep
  simp only [h1, hm, hnz, ne_eq, not_false_eq_true, ite_true]
  show (if ("moisture" : String) = "moisture"
        then some (normalizeQ ((moistureToPercentage x : ℤ) : ℚ))
        else (m.set r.1 r.2).get "moisture") = some 100
  rw [if_pos rfl]
  unfold normalizeQ
  rw [hall x]
  norm_num

/-- Witness for C10 (amended) at a concrete fields object holding the
    normalized raw value 2000 and a later temperature row. -/
theorem c10_witness :
    ((("temperature", (20 : ℚ)) : Row).1 ≠ "moisture") ∧
    (JsMap.set JsMap.empty "moisture" 67).get "moisture" =
      some ((moistureToPercentage 2000 : ℤ) : ℚ) ∧
    ((moistureToPercentage 2000 : ℤ) : ℚ) ≠ 0 ∧
    (onlineStep (JsMap.set JsMap.empty "moisture" 67) ("temperature", 20)).get "moisture" =
      some 100 := by
  have hm : (JsMap.set JsMap.empty "moisture" 67).get "moisture" =
      some ((moistureToPercentage 2000 : ℤ) : ℚ) := by
    show some (67 : ℚ) = some ((moistureToPercentage 2000 : ℤ) : ℚ)
    norm_num [moistureToPercentage, round_eq]
  have hnz : ((moistureToPercentage 2000 : ℤ) : ℚ) ≠ 0 := by
    norm_num [moistureToPercentage, round_eq]
  exact ⟨by decide, hm, hnz,
    c10_double_normalize_amended.2 _ 2000 _ (by decide) hm hnz⟩

/-! ### C1 — version semantics of PUT /config on an existing record -/

/-- Replacing every record of the id in the store keeps it findable: find?
    on the updated store returns the replacement. -/
lemma find?_map_update (store : List DeviceConfig) (id : String)
    (item rep : DeviceConfig)
    (hfind : store.find? (fun c => decide (c.id = id)) = some item)
    (hrep : rep.id = id) :
    (store.map (fun c => if c.id = id then rep else c)).find?
      (fun c => decide (c.id = id)) = some rep := by
  induction store with
  | nil => simp at hfind
  | cons c cs ih =>
    by_cases h : c.id = id
    · simp only [List.map_cons, if_pos h]
      exact List.find?_cons_of_pos _ (by simp [hrep])
    · simp only [List.map_cons, if_neg h]
      rw [List.find?_cons_of_neg _ (by simp [h])]
      rw [List.find?_cons_of_neg _ (by simp [h])] at hfind
      exact ih hfind

/-- C1: for a stored config at version N found by id, PUT /config with a body
    carrying name, interval and led_state leaves the version at N when the
    incoming interval and led_state both equal the stored values and sets it
    to exactly N+1 when either differs; name, interval, led_state and
    threshold are overwritten with the incoming values while id and imagePath
    are untouched; and submitting the same body a second time in sequence
    leaves the version unchanged. -/
theorem c1_config_upsert_version (store : List DeviceConfig) (id : String)
    (b : ConfigBody) (item : DeviceConfig) (n : String) (i : ℤ) (l : Bool)
    (hne : id ≠ "")
    (hfind : store.find? (fun c => decide (c.id = id)) = some item)
    (hn : b.name = some n) (hi : b.interval = some i) (hl : b.led_state = some l) :
    ∃ store2 item2,
      putConfig store (some id) (some b) = .ok (store2, false) ∧
      store2.find? (fun c => decide (c.id = id)) = some item2 ∧
      item2.version =
        (if i = item.interval ∧ l = item.led_state then item.version else item.version + 1) ∧
      item2.name = n ∧ item2.interval = i ∧ item2.led_state = l ∧
      item2.soilMoistureThreshold = b.soilMoistureThreshold ∧
      item2.id = item.id ∧ item2.imagePath = item.imagePath ∧
      ∃ store3 item3,
        putConfig store2 (some id) (some b) = .ok (store3, false) ∧
        store3.find? (fun c => decide (c.id = id)) = some item3 ∧
        item3.version = item2.version := by
  have hid : item.id = id := by
    have := List.find?_some hfind
    simpa using this
  have hupd : ∀ (st : List DeviceConfig) (it : DeviceConfig),
      st.find? (fun c => decide (c.id = id)) = some it →
      putConfig st (some id) (some b) =
        .ok (st.map (fun c => if c.id = id then
              ({ it with
                  name := n,
                  version := if neqLooseInt it.interval b.interval ||
                               neqLooseBool it.led_state b.led_state
                             then it.version + 1 else it.version,
                  interval := i, led_state := l,
                  soilMoistureThreshold := b.soilMoistureThreshold } : DeviceConfig)
            else c), false) := by
    intro st it hf
    simp [putConfig, hne, hf, hn, hi, hl]
  set item2 : DeviceConfig :=
    { item with
        name := n,
        version := if neqLooseInt item.interval b.interval ||
                     neqLooseBool item.led_state b.led_state
                   then item.version + 1 else item.version,
        interval := i, led_state := l,
        soilMoistureThreshold := b.soilMoistureThreshold } with hitem2
  have hver : item2.version =
      (if i = item.interval ∧ l = item.led_state then item.version else item.version + 1) := by
    rw [hitem2]
    by_cases h1 : i = item.interval <;> by_cases h2 : l = item.led_state <;>
      simp [neqLooseInt, neqLooseBool, hi, hl, h1, h2] <;>
      first
        | (intro hcon; exact absurd hcon.symm h1)
        | (intro hcon; exact absurd hcon.symm h2)
  refine ⟨_, item2, hupd store item hfind, find?_map_update store id item item2 hfind hid, hver,
    rfl, rfl, rfl, rfl, rfl, rfl, ?_⟩
  have hfind2 : (store.map (fun c => if c.id = id then item2 else c)).find?
      (fun c => decide (c.id = id)) = some item2 :=
    find?_map_update store id item item2 hfind hid
  set item3 : DeviceConfig :=
    { item2 with
        name := n,
        version := if neqLooseInt item2.interval b.interval ||
                     neqLooseBool item2.led_state b.led_state
                   then item2.version + 1 else item2.version,
        interval := i, led_state := l,
        soilMoistureThreshold := b.soilMoistureThreshold } with hitem3
  refine ⟨_, item3, hupd _ item2 hfind2,
    find?_map_update _ id item2 item3 hfind2 (by rw [hitem3]; exact hid), ?_⟩
  rw [hitem3]
  simp [neqLooseInt, neqLooseBool, hi, hl, hitem2]

/-- Witness for C1 at a concrete store: a stored config at version 3 with
    interval 30 updated by a body with interval 60 (changed). -/
theorem c1_witness :
    ("node1" : String) ≠ "" ∧
    ([(⟨"node1", "Old", 3, 30, false, none, none⟩ : DeviceConfig)].find?
      (fun c => decide (c.id = "node1")) = some ⟨"node1", "Old", 3, 30, false, none, none⟩) ∧
    (∃ store2 item2,
      putConfig [(⟨"node1", "Old", 3, 30, false, none, none⟩ : DeviceConfig)] (some "node1")
          (some ⟨some "New", none, some 60, some true, none, some 40⟩) = .ok (store2, false) ∧
      store2.find? (fun c => decide (c.id = "node1")) = some item2 ∧
      item2.version = (if (60 : ℤ) = 30 ∧ true = false then 3 else 3 + 1) ∧
      item2.name = "New" ∧ item2.interval = 60 ∧ item2.led_state = true ∧
      item2.soilMoistureThreshold = some 40 ∧
      item2.id = "node1" ∧ item2.imagePath = none ∧
      ∃ store3 item3,
        putConfig store2 (some "node1")
            (some ⟨some "New", none, some 60, some true, none, some 40⟩) = .ok (store3, false) ∧
        store3.find? (fun c => decide (c.id = "node1")) = some item3 ∧
        item3.version = item2.version) :=
  ⟨by decide, by decide,
    c1_config_upsert_version [⟨"node1", "Old", 3, 30, false, none, none⟩] "node1"
      ⟨some "New", none, some 60, some true, none, some 40⟩
      ⟨"node1", "Old", 3, 30, false, none, none⟩ "New" 60 true
      (by decide) (by decide) rfl rfl rfl⟩

/-! ### C6 — creation path of PUT /config -/

/-- C6 as stated is false: creating a config for a fresh id with a body that
    carries version 2 stores version 2, not 1 -- findOrCreate simply uses the
    request body as the row's initial values. -/
theorem c6_counterexample :
    putConfig [] (some "node1")
        (some ⟨some "Basil", some 2, some 60, some true, none, none⟩) =
      .ok ([⟨"node1", "Basil", 2, 60, true, none, none⟩], true) ∧
    (2 : ℤ) ≠ 1 := by
  exact ⟨rfl, by decide⟩

/-- C6 (amended): for an id with no existing record, PUT /config creates a
    config whose fields -- version included -- are exactly the values supplied
    in the body (the nullable imagePath and threshold default to null when
    omitted, being absent body fields); the version is not forced to 1, and a
    body omitting the NOT NULL version column makes the write fail (500)
    instead of applying a default. -/
theorem c6_create_version_amended (store : List DeviceConfig) (id : String)
    (b : ConfigBody) (n : String) (v i : ℤ) (l : Bool) (hne : id ≠ "")
    (hfind : store.find? (fun c => decide (c.id = id)) = none)
    (hn : b.name = some n) (hv : b.version = some v) (hi : b.interval = some i)
    (hl : b.led_state = some l) :
    putConfig store (some id) (some b) =
      .ok (store ++ [{ id := id, name := n, version := v, interval := i, led_state := l,
                       imagePath := b.imagePath,
                       soilMoistureThreshold := b.soilMoistureThreshold }], true) ∧
    ∀ b2 : ConfigBody, b2.version = none →
      putConfig store (some id) (some b2) = .error .internal := by
  constructor
  · simp [putConfig, hne, hfind, hn, hv, hi, hl]
  · intro b2 h2
    rcases b2 with ⟨bn, bv, bi, bl, bp, bt⟩
    simp only at h2
    subst h2
    cases bn <;> cases bi <;> cases bl <;> simp [putConfig, hne, hfind]

/-- Witness for C6 (amended) at a concrete fresh id and supplied version 7. -/
theorem c6_witness :
    ("node2" : String) ≠ "" ∧
    (([] : List DeviceConfig).find? (fun c => decide (c.id = "node2")) = none) ∧
    (putConfig [] (some "node2")
        (some ⟨some "Mint", some 7, some 90, some false, none, some 25⟩) =
      .ok ([{ id := "node2", name := "Mint", version := 7, interval := 90,
              led_state := false, imagePath := none,
              soilMoistureThreshold := some 25 }], true) ∧
     ∀ b2 : ConfigBody, b2.version = none →
       putConfig [] (some "node2") (some b2) = .error .internal) :=
  ⟨by decide, rfl,
    c6_create_version_amended [] "node2"
      ⟨some "Mint", some 7, some 90, some false, none, some 25⟩
      "Mint" 7 90 false (by decide) rfl rfl rfl rfl rfl⟩

/-! ### C7 — frame of POST /upload-image -/

/-- C7 as stated is false: with no config stored for the id, the upload
    handler still answers success (200 with the image path) rather than
    NotFound, and the store is unchanged. -/
theorem c7_counterexample :
    uploadImage [] true (some "ghost") "f.png" = .ok ([], "/uploads/f.png") ∧
    uploadImage [] true (some "ghost") "f.png" ≠ .error .notFound := by
  have h : uploadImage [] true (some "ghost") "f.png" = .ok ([], "/uploads/f.png") := rfl
  refine ⟨h, ?_⟩
  rw [h]
  exact fun hc => Except.noConfusion hc

/-- C7 (amended): POST /upload-image with a file and a nonempty id always
    answers success with the computed image path; when a config with the id
    exists only its imagePath field changes -- id, version, name, interval,
    led_state and threshold are all preserved row by row -- and when no config
    with the id exists the store is left entirely unchanged (no NotFound is
    reported). -/
theorem c7_upload_image_amended (store : List DeviceConfig) (bid filename : String)
    (hne : bid ≠ "") :
    ∃ store2,
      uploadImage store true (some bid) filename = .ok (store2, "/uploads/" ++ filename) ∧
      (∀ c2 ∈ store2, ∃ c ∈ store, c2.id = c.id ∧ c2.version = c.version ∧
        c2.name = c.name ∧ c2.interval = c.interval ∧ c2.led_state = c.led_state ∧
        c2.soilMoistureThreshold = c.soilMoistureThreshold ∧
        (c.id ≠ bid → c2.imagePath = c.imagePath) ∧
        (c.id = bid → c2.imagePath = some ("/uploads/" ++ filename))) ∧
      (store.find? (fun c => decide (c.id = bid)) = none → store2 = store) := by
  refine ⟨store.map (fun c => if c.id = bid then
      { c with imagePath := some ("/uploads/" ++ filename) } else c), ?_, ?_, ?_⟩
  · simp [uploadImage, hne]
  · intro c2 hc2
    rcases List.mem_map.mp hc2 with ⟨c, hc, heq⟩
    by_cases h : c.id = bid
    · rw [if_pos h] at heq
      exact ⟨c, hc, by rw [← heq], by rw [← heq], by rw [← heq], by rw [← heq],
        by rw [← heq], by rw [← heq], fun hcon => absurd h hcon,
        fun _ => by rw [← heq]⟩
    · rw [if_neg h] at heq
      exact ⟨c, hc, by rw [← heq], by rw [← heq], by rw [← heq], by rw [← heq],
        by rw [← heq], by rw [← heq], fun _ => by rw [← heq], fun hcon => absurd hcon h⟩
  · intro hnone
    have hall := List.find?_eq_none.mp hnone
    have : ∀ c ∈ store, (if c.id = bid then
        ({ c with imagePath := some ("/uploads/" ++ filename) } : DeviceConfig) else c) = c := by
      intro c hc
      rw [if_neg (by simpa using hall c hc)]
    rw [List.map_congr_left this]
    exact List.map_id' store

/-- Witness for C7 (amended) at a concrete one-row store whose id matches. -/
theorem c7_witness :
    ("p" : String) ≠ "" ∧
    ∃ store2,
      uploadImage [(⟨"p", "Basil", 1, 60, false, none, some 50⟩ : DeviceConfig)]
          true (some "p") "f.png" = .ok (store2, "/uploads/" ++ "f.png") ∧
      (∀ c2 ∈ store2, ∃ c ∈ [(⟨"p", "Basil", 1, 60, false, none, some 50⟩ : DeviceConfig)],
        c2.id = c.id ∧ c2.version = c.version ∧
        c2.name = c.name ∧ c2.interval = c.interval ∧ c2.led_state = c.led_state ∧
        c2.soilMoistureThreshold = c.soilMoistureThreshold ∧
        (c.id ≠ "p" → c2.imagePath = c.imagePath) ∧
        (c.id = "p" → c2.imagePath = some ("/uploads/" ++ "f.png"))) ∧
      ([(⟨"p", "Basil", 1, 60, false, none, some 50⟩ : DeviceConfig)].find?
        (fun c => decide (c.id = "p")) = none →
          store2 = [(⟨"p", "Basil", 1, 60, false, none, some 50⟩ : DeviceConfig)]) :=
  ⟨by decide,
    c7_upload_image_amended [⟨"p", "Basil", 1, 60, false, none, some 50⟩] "p" "f.png"
      (by decide)⟩

/-! ### C8 — GET /current-measurements: NotFound exactly on an empty window -/

/-- Reading a JsMap after a set. -/
lemma JsMap.get_set (m : JsMap) (k : String) (v : ℚ) (g : String) :
    (m.set k v).get g = if g = k then some v else m.get g := rfl

/-- Reading the empty JsMap. -/
lemma JsMap.get_empty (g : String) : JsMap.empty.get g = none := rfl

/-- One loop step changes exactly the written field; a moisture row stores the
    normalized value. -/
lemma curStep_get (m : JsMap) (r : Row) (f : String) :
    (curStep m r).get f =
      if f = r.1 then some (if r.1 = "moisture" then normalizeQ r.2 else r.2)
      else m.get f := by
  rcases r with ⟨k, v⟩
  by_cases hk : k = "moisture"
  · subst hk
    by_cases hf : f = "moisture"
    · subst hf
      simp [curStep, JsMap.get_set]
    · simp [curStep, JsMap.get_set, hf]
  · by_cases hf : f = k
    · subst hf
      simp [curStep, JsMap.get_set, hk]
    · simp [curStep, JsMap.get_set, hf, hk]

/-- The whole loop leaves, for each field, the value of the last row carrying
    it (normalized for the moisture field), and touches nothing else. -/
lemma foldl_curStep_get (rows : List Row) (m : JsMap) (f : String) :
    (rows.foldl curStep m).get f =
      match lastFieldValue f rows with
      | some v => some (if f = "moisture" then normalizeQ v else v)
      | none => m.get f := by
  induction rows generalizing m with
  | nil => rfl
  | cons r rs ih =>
    simp only [List.foldl_cons]
    rw [ih (curStep m r)]
    cases hlast : lastFieldValue f rs with
    | some v =>
      have h2 : lastFieldValue f (r :: rs) = some v := by
        simp [lastFieldValue, hlast]
      rw [h2]
    | none =>
      have h2 : lastFieldValue f (r :: rs) = (if r.1 = f then some r.2 else none) := by
        simp [lastFieldValue, hlast]
      rw [h2, curStep_get]
      by_cases hf : r.1 = f
      · rw [if_pos hf, if_pos hf.symm, hf]
      · rw [if_neg hf, if_neg (fun hh => hf hh.symm)]

/-- A set never empties the key list. -/
lemma set_keys_ne_nil (m : JsMap) (k : String) (v : ℚ) :
    (JsMap.set m k v).keys ≠ [] := by
  show (if k ∈ m.keys then m.keys else m.keys ++ [k]) ≠ []
  by_cases h : k ∈ m.keys
  · rw [if_pos h]
    intro hnil
    rw [hnil] at h
    exact List.not_mem_nil k h
  · rw [if_neg h]
    intro hnil
    rcases List.append_eq_nil.mp hnil with ⟨-, h2⟩
    exact List.noConfusion h2

/-- A loop step never empties the key list. -/
lemma curStep_keys_ne_nil (m : JsMap) (r : Row) : (curStep m r).keys ≠ [] := by
  unfold curStep
  by_cases hr : r.1 = "moisture"
  · rw [if_pos hr]
    exact set_keys_ne_nil _ _ _
  · rw [if_neg hr]
    exact set_keys_ne_nil _ _ _

/-- Once nonempty, the key list stays nonempty across the loop. -/
lemma foldl_curStep_keys_ne_nil (rows : List Row) (m : JsMap) (h : m.keys ≠ []) :
    (rows.foldl curStep m).keys ≠ [] := by
  induction rows generalizing m with
  | nil => exact h
  | cons r rs ih => exact ih (curStep m r) (curStep_keys_ne_nil m r)

/-- The result object has no keys exactly when the query returned no rows. -/
lemma processRows_keys_empty_iff (rows : List Row) :
    (processRows rows).keys = [] ↔ rows = [] := by
  constructor
  · intro h
    cases rows with
    | nil => rfl
    | cons r rs =>
      exact absurd h (foldl_curStep_keys_ne_nil rs (curStep JsMap.empty r)
        (curStep_keys_ne_nil JsMap.empty r))
  · intro h
    rw [h]
    rfl

/-- C8: for a nonempty id, GET /current-measurements answers NotFound exactly
    when the 48h window returned zero rows; with at least one row it answers
    the mapping whose moisture field is the normalized last moisture value and
    whose other fields are the last raw values. -/
theorem c8_current_measurements (id : String) (rows : List Row) (hne : id ≠ "") :
    (currentMeasurements (some id) rows = .error .notFound ↔ rows = []) ∧
    (∀ m, currentMeasurements (some id) rows = .ok m →
      m.get "moisture" = (lastFieldValue "moisture" rows).map normalizeQ ∧
      ∀ f, f ≠ "moisture" → m.get f = lastFieldValue f rows) := by
  have hget : ∀ f, (processRows rows).get f =
      match lastFieldValue f rows with
      | some v => some (if f = "moisture" then normalizeQ v else v)
      | none => (JsMap.empty).get f := fun f => foldl_curStep_get rows JsMap.empty f
  constructor
  · constructor
    · intro h
      by_cases hkeys : (processRows rows).keys.isEmpty
      · exact (processRows_keys_empty_iff rows).mp (List.isEmpty_iff.mp hkeys)
      · simp [currentMeasurements, hne, hkeys] at h
    · intro h
      subst h
      simp [currentMeasurements, hne]
      rfl
  · intro m hm
    have hkeys : ¬ (processRows rows).keys.isEmpty := by
      intro hk
      simp [currentMeasurements, hne, hk] at hm
    have hm2 : m = processRows rows := by
      simp [currentMeasurements, hne, hkeys] at hm
      exact hm.symm
    subst hm2
    constructor
    · rw [hget "moisture"]
      cases hlast : lastFieldValue "moisture" rows <;> simp [JsMap.get_empty]
    · intro f hf
      rw [hget f]
      cases hlast : lastFieldValue f rows <;> simp [hf, JsMap.get_empty]

/-- Witness for C8 at a concrete two-row window (moisture raw 1000 and a
    temperature reading). -/
theorem c8_witness :
    ("pot1" : String) ≠ "" ∧
    (currentMeasurements (some "pot1") [("moisture", 1000), ("temperature", 21)] =
        .error .notFound ↔ [(("moisture", 1000) : Row), ("temperature", 21)] = []) ∧
    (∀ m, currentMeasurements (some "pot1") [("moisture", 1000), ("temperature", 21)] = .ok m →
      m.get "moisture" =
        (lastFieldValue "moisture" [("moisture", 1000), ("temperature", 21)]).map normalizeQ ∧
      ∀ f, f ≠ "moisture" →
        m.get f = lastFieldValue f [("moisture", 1000), ("temperature", 21)]) :=
  ⟨by decide,
    (c8_current_measurements "pot1" [("moisture", 1000), ("temperature", 21)] (by decide)).1,
    (c8_current_measurements "pot1" [("moisture", 1000), ("temperature", 21)] (by decide)).2⟩

/-! ### C3 — GET /subscription threshold evaluation -/

/-- C3: for a node with an existing config, the threshold evaluation reports
    thresholdsReached exactly when the stored threshold is set, the latest
    normalized moisture is strictly above the dead-band floor 5, and the
    moisture is at most the threshold; whenever thresholdsReached is false the
    message body is empty.  (A stored threshold of 0 is falsy in the source,
    but moisture > 5 and moisture ≤ 0 is impossible anyway, so the two
    readings agree.) -/
theorem c3_evaluate_threshold (store : List DeviceConfig) (nid : String)
    (rows : List Row) (config : DeviceConfig) (r : ThresholdResult)
    (hne : nid ≠ "")
    (hfind : store.find? (fun c => decide (c.id = nid)) = some config)
    (hr : subscriptionGet store (some nid) rows = .ok r) :
    (r.thresholdsReached = true ↔
      (∃ t, config.soilMoistureThreshold = some t ∧
        ∃ mv, (processRows rows).get "moisture" = some mv ∧ 5 < mv ∧ mv ≤ (t : ℚ))) ∧
    (r.thresholdsReached = false → r.message.body = "") := by
  simp only [subscriptionGet, if_neg hne, hfind] at hr
  rcases ht : config.soilMoistureThreshold with _ | t <;>
    rcases hm : (processRows rows).get "moisture" with _ | mv <;>
      rw [ht, hm] at hr <;> rw [Except.ok.injEq] at hr <;> subst hr
  · exact ⟨by simp [ht], fun _ => rfl⟩
  · exact ⟨by simp [ht], fun _ => rfl⟩
  · exact ⟨by simp [hm], fun _ => rfl⟩
  · constructor
    · constructor
      · intro h
        simp only [Bool.and_eq_true, decide_eq_true_eq] at h
        exact ⟨t, rfl, mv, rfl, h.1.2, h.2⟩
      · rintro ⟨t', ht', mv', hmv', h5, hle⟩
        rw [Option.some.injEq] at ht' hmv'
        subst ht'
        subst hmv'
        have htpos : t ≠ 0 := by
          intro h0
          subst h0
          push_cast at hle
          linarith
        simp only [Bool.and_eq_true, decide_eq_true_eq]
        exact ⟨⟨htpos, h5⟩, hle⟩
    · intro hfalse
      simp only at hfalse
      show (if (decide (t ≠ 0) && decide (mv > 5) && decide (mv ≤ (t : ℚ))) = true
            then alertBody else "") = ""
      rw [hfalse]
      simp

/-- Witness for C3 at a concrete config (threshold 150) and a moisture raw
    value of 1000 (normalized 100): the threshold is reached and the body is
    the alert text. -/
theorem c3_witness :
    ("a" : String) ≠ "" ∧
    ([(⟨"a", "Basil", 1, 60, false, none, some 150⟩ : DeviceConfig)].find?
      (fun c => decide (c.id = "a")) = some ⟨"a", "Basil", 1, 60, false, none, some 150⟩) ∧
    (subscriptionGet [⟨"a", "Basil", 1, 60, false, none, some 150⟩] (some "a")
        [("moisture", 1000)] =
      .ok ⟨true, ⟨"Basil", alertBody, "/icon.svg"⟩⟩) ∧
    ((⟨true, ⟨"Basil", alertBody, "/icon.svg"⟩⟩ : ThresholdResult).thresholdsReached = true ↔
      (∃ t, (⟨"a", "Basil", 1, 60, false, none, some 150⟩ : DeviceConfig).soilMoistureThreshold
          = some t ∧
        ∃ mv, (processRows [(("moisture", 1000) : Row)]).get "moisture" = some mv ∧
          5 < mv ∧ mv ≤ (t : ℚ))) :=
  ⟨by decide, by decide, rfl,
    (c3_evaluate_threshold [⟨"a", "Basil", 1, 60, false, none, some 150⟩] "a"
      [("moisture", 1000)] ⟨"a", "Basil", 1, 60, false, none, some 150⟩
      ⟨true, ⟨"Basil", alertBody, "/icon.svg"⟩⟩ (by decide) (by decide) rfl).1⟩

/-! ### C4 — showWarning in the online-nodes view -/

/-- C4 as stated is false: a raw reading of 3000 normalizes to moisture 0,
    which is present and ≤ the stored threshold 50, yet the truthiness guard
    on entry.fields.moisture makes showWarning false -- both directly and
    through the join of the online-nodes handler. -/
theorem c4_counterexample :
    (onlineProcessRows [("moisture", 3000)]).get "moisture" = some 0 ∧
    (⟨"p", "Plant", 1, 60, false, none, some 50⟩ : DeviceConfig).soilMoistureThreshold
      = some 50 ∧
    ((0 : ℚ) ≤ (50 : ℤ)) ∧
    showWarningOf ⟨"p", "Plant", 1, 60, false, none, some 50⟩
      (onlineProcessRows [("moisture", 3000)]) = false ∧
    (onlineJoin [⟨"p", "Plant", 1, 60, false, none, some 50⟩] ""
        ⟨"p", onlineProcessRows [("moisture", 3000)]⟩).map
      (fun v => v.showWarning) = some false := by
  refine ⟨by decide, rfl, by norm_num, by decide, by decide⟩

/-- C4 (amended): in the view built by the online-nodes handler, a joined
    device's showWarning is true iff the stored threshold is set and nonzero,
    a latest moisture value exists and is nonzero, and the moisture is ≤ the
    threshold.  When the threshold is absent or no moisture reading exists it
    is false -- but at the value 0 (falsy in the source) of either the
    threshold or the moisture, the warning is also suppressed, so the claimed
    behaviour does not extend to the zero values. -/
theorem c4_show_warning_amended (store : List DeviceConfig) (apiDomain : String)
    (entry : NodeEntry) (view : NodeView)
    (hjoin : onlineJoin store apiDomain entry = some view) :
    view.showWarning = true ↔
      (∃ item, store.find? (fun c => decide (c.id = entry.id)) = some item ∧
        ∃ t, item.soilMoistureThreshold = some t ∧ t ≠ 0 ∧
          ∃ mv, entry.fields.get "moisture" = some mv ∧ mv ≠ 0 ∧ mv ≤ (t : ℚ)) := by
  cases hfind : store.find? (fun c => decide (c.id = entry.id)) with
  | none =>
    rw [onlineJoin, hfind] at hjoin
    exact absurd hjoin (by simp)
  | some item =>
    rw [onlineJoin, hfind, Option.some.injEq] at hjoin
    subst hjoin
    show showWarningOf item entry.fields = true ↔ _
    unfold showWarningOf
    rcases ht : item.soilMoistureThreshold with _ | t <;>
      rcases hm : entry.fields.get "moisture" with _ | mv
    · simp [ht]
    · simp [ht]
    · simp [hm, ht]
    · simp only [Bool.and_eq_true, decide_eq_true_eq]
      constructor
      · rintro ⟨⟨htz, hmz⟩, hle⟩
        exact ⟨item, rfl, t, ht, htz, mv, rfl, hmz, hle⟩
      · rintro ⟨item', hitem', t', ht', htz, mv', hmv', hmz, hle⟩
        rw [Option.some.injEq] at hitem' hmv'
        subst hitem'
        subst hmv'
        rw [ht, Option.some.injEq] at ht'
        subst ht'
        exact ⟨⟨htz, hmz⟩, hle⟩

/-- Witness for C4 (amended): threshold 50 with a normalized moisture of 100
    coming from a raw reading of 1000 -- no warning since 100 > 50; and the
    iff instance this theorem yields for the joined view. -/
theorem c4_witness :
    (onlineJoin [(⟨"p", "Plant", 1, 60, false, none, some 50⟩ : DeviceConfig)] "d"
        ⟨"p", onlineProcessRows [("moisture", 1000)]⟩ =
      some ⟨"p", "Plant", none, false⟩) ∧
    ((⟨"p", "Plant", none, false⟩ : NodeView).showWarning = true ↔
      (∃ item, [(⟨"p", "Plant", 1, 60, false, none, some 50⟩ : DeviceConfig)].find?
          (fun c => decide (c.id = ("p" : String))) = some item ∧
        ∃ t, item.soilMoistureThreshold = some t ∧ t ≠ 0 ∧
          ∃ mv, (onlineProcessRows [(("moisture", 1000) : Row)]).get "moisture" = some mv ∧
            mv ≠ 0 ∧ mv ≤ (t : ℚ))) :=
  ⟨rfl,
    c4_show_warning_amended [⟨"p", "Plant", 1, 60, false, none, some 50⟩] "d"
      ⟨"p", onlineProcessRows [("moisture", 1000)]⟩ ⟨"p", "Plant", none, false⟩ rfl⟩

/-! ### C2 and C9 — POST /subscription bulk notification -/

/-- POST /subscription on a one-subscription store whose id is targeted:
    the result is exactly the bulk step applied to that subscription. -/
lemma notifyMany_singleton (s : Sub) (l : List String) (msg : String) (now : ℤ)
    (deliver : Sub → Bool) (htarget : l.contains s.id = true) :
    notifyMany [s] (some l) (some msg) now deliver =
      .ok ([(bulkNotifyStep now deliver s).1],
           if (bulkNotifyStep now deliver s).2
           then [(bulkNotifyStep now deliver s).1.id] else []) := by
  have hlne : l.isEmpty = false := by
    cases l with
    | nil => simp at htarget
    | cons a as => rfl
  simp only [notifyMany, hlne, Bool.false_eq_true, if_false, Bool.false_or]
  rw [List.filter_cons]
  simp only [htarget, if_true, List.filter_nil]
  have hmem : s.id ∈ l := by simpa using htarget
  cases hstep : (bulkNotifyStep now deliver s).2 <;>
    simp [hstep, hmem]

/-- C2 as stated is false: a never-notified subscription whose delivery FAILS
    is attempted at time 10800000 ms, its lastSent stays unset (the update
    happens only after a successful send), and a second call 1 ms later --
    well inside the 3-hour window of the first attempt -- attempts it again:
    two bulk delivery attempts within one rolling 3-hour window. -/
theorem c2_counterexample :
    notifyMany [⟨"a", "d", none⟩] (some ["a"]) (some "m") 10800000 (fun _ => false) =
      .ok ([⟨"a", "d", none⟩], ["a"]) ∧
    notifyMany [⟨"a", "d", none⟩] (some ["a"]) (some "m") 10800001 (fun _ => false) =
      .ok ([⟨"a", "d", none⟩], ["a"]) ∧
    ((10800001 - 10800000 : ℚ) / 1000 < waitPeriodInSeconds) := by
  have h1 : ¬ secondsSinceLastSend 10800000 ⟨"a", "d", none⟩ < waitPeriodInSeconds := by
    norm_num [secondsSinceLastSend, waitPeriodInSeconds]
  have h2 : ¬ secondsSinceLastSend 10800001 ⟨"a", "d", none⟩ < waitPeriodInSeconds := by
    norm_num [secondsSinceLastSend, waitPeriodInSeconds]
  have hs1 : bulkNotifyStep 10800000 (fun _ => false) ⟨"a", "d", none⟩ =
      (⟨"a", "d", none⟩, true) := by
    unfold bulkNotifyStep
    rw [if_neg h1]
    rfl
  have hs2 : bulkNotifyStep 10800001 (fun _ => false) ⟨"a", "d", none⟩ =
      (⟨"a", "d", none⟩, true) := by
    unfold bulkNotifyStep
    rw [if_neg h2]
    rfl
  refine ⟨?_, ?_, by norm_num [waitPeriodInSeconds]⟩
  · rw [notifyMany_singleton _ _ _ _ _ (by decide), hs1]
    rfl
  · rw [notifyMany_singleton _ _ _ _ _ (by decide), hs2]
    rfl

/-- The bulk step never changes a subscription's id. -/
lemma bulkNotifyStep_id (now : ℤ) (deliver : Sub → Bool) (s : Sub) :
    ((bulkNotifyStep now deliver s).1).id = s.id := by
  unfold bulkNotifyStep
  by_cases h : secondsSinceLastSend now s < waitPeriodInSeconds
  · rw [if_pos h]
  · rw [if_neg h]
    by_cases hd : deliver s <;> simp [hd]

/-- Inside the wait window the bulk step skips: no attempt, no state change. -/
lemma bulkNotifyStep_skip {now : ℤ} {deliver : Sub → Bool} {s : Sub}
    (h : secondsSinceLastSend now s < waitPeriodInSeconds) :
    bulkNotifyStep now deliver s = (s, false) := by
  unfold bulkNotifyStep
  rw [if_pos h]

/-- Outside the wait window the bulk step attempts, and updates lastSent to
    the attempt time exactly when the delivery succeeds. -/
lemma bulkNotifyStep_attempt {now : ℤ} {deliver : Sub → Bool} {s : Sub}
    (h : ¬ secondsSinceLastSend now s < waitPeriodInSeconds) :
    bulkNotifyStep now deliver s =
      (if deliver s then { s with lastSent := some now } else s, true) := by
  unfold bulkNotifyStep
  rw [if_neg h]
  cases hd : deliver s <;> simp

/-- A successful POST /subscription run determines the updated store and the
    attempted ids as the mapped/filtered images of the bulk step. -/
lemma notifyMany_ok_elim (store : List Sub) (l : List String) (msg : String)
    (now : ℤ) (deliver : Sub → Bool) (store2 : List Sub) (attempted : List String)
    (h : notifyMany store (some l) (some msg) now deliver = .ok (store2, attempted)) :
    store2 = store.map (fun s =>
        if l.isEmpty || l.contains s.id then (bulkNotifyStep now deliver s).1 else s) ∧
    attempted = (((if l.isEmpty then store else store.filter (fun s => l.contains s.id)).map
        (fun s => bulkNotifyStep now deliver s)).filter (fun p => p.2)).map
        (fun p => p.1.id) := by
  by_cases hemp : l.isEmpty = true
  · simp only [notifyMany, hemp, if_true, Bool.true_or] at h ⊢
    split at h
    · exact Except.noConfusion h
    · rw [Except.ok.injEq, Prod.mk.injEq] at h
      exact ⟨h.1.symm, h.2.symm⟩
  · have hemp' : l.isEmpty = false := by simpa using hemp
    simp only [notifyMany, hemp', Bool.false_eq_true, if_false, Bool.false_or] at h ⊢
    split at h
    · exact Except.noConfusion h
    · rw [Except.ok.injEq, Prod.mk.injEq] at h
      exact ⟨h.1.symm, h.2.symm⟩

/-- In a store with unique ids, mapping an id-preserving function keeps each
    row findable by id and find? returns its image. -/
lemma find?_map_sub (store : List Sub) (f : Sub → Sub) (s : Sub)
    (hpres : ∀ x, (f x).id = x.id)
    (hnodup : (store.map Sub.id).Nodup) (hs : s ∈ store) :
    (store.map f).find? (fun x => decide (x.id = s.id)) = some (f s) := by
  induction store with
  | nil => exact absurd hs (List.not_mem_nil s)
  | cons c cs ih =>
    rw [List.map_cons] at hnodup ⊢
    rcases List.mem_cons.mp hs with rfl | hmem
    · exact List.find?_cons_of_pos _ (by simp [hpres])
    · have hcid : ¬ (c.id = s.id) := by
        intro he
        exact (List.nodup_cons.mp hnodup).1 (he ▸ List.mem_map.mpr ⟨s, hmem, rfl⟩)
      rw [List.find?_cons_of_neg _ (by simp [hpres, hcid])]
      exact ih (List.nodup_cons.mp hnodup).2 hmem

/-- A stored subscription selected by the ids parameter (all of them when the
    list is empty) is in the targeted list. -/
lemma mem_targeted (store : List Sub) (l : List String) (s : Sub)
    (hs : s ∈ store) (ht : l = [] ∨ s.id ∈ l) :
    s ∈ (if l.isEmpty then store else store.filter (fun x => l.contains x.id)) := by
  by_cases hemp : l.isEmpty = true
  · rw [if_pos hemp]
    exact hs
  · rw [if_neg hemp]
    rcases ht with rfl | hmem
    · simp at hemp
    · exact List.mem_filter.mpr ⟨hs, by simpa using hmem⟩

/-- The targeted list inherits the uniqueness of the stored ids. -/
lemma targeted_ids_nodup (store : List Sub) (l : List String)
    (h : (store.map Sub.id).Nodup) :
    ((if l.isEmpty then store
      else store.filter (fun x => l.contains x.id)).map Sub.id).Nodup := by
  by_cases hemp : l.isEmpty = true
  · rw [if_pos hemp]
    exact h
  · rw [if_neg hemp]
    exact h.sublist ((List.filter_sublist store).map Sub.id)

/-- The store2 branch condition holds for a targeted subscription. -/
lemma targeted_cond (l : List String) (s : Sub) (ht : l = [] ∨ s.id ∈ l) :
    (l.isEmpty || l.contains s.id) = true := by
  rcases ht with rfl | h
  · rfl
  · simp [h]

/-- An id absent from a batch contributes no attempted id. -/
lemma attempted_not_mem (ts : List Sub) (now : ℤ) (deliver : Sub → Bool) (i : String)
    (hni : i ∉ ts.map Sub.id) :
    i ∉ (((ts.map (fun x => bulkNotifyStep now deliver x)).filter (fun p => p.2)).map
      (fun p => p.1.id)) := by
  intro hmem
  rcases List.mem_map.mp hmem with ⟨p, hp, hpi⟩
  rcases List.mem_filter.mp hp with ⟨hpm, -⟩
  rcases List.mem_map.mp hpm with ⟨t, htm, rfl⟩
  exact hni (List.mem_map.mpr ⟨t, htm, by rw [← hpi, bulkNotifyStep_id]⟩)

/-- In a batch with unique ids, a subscription's id is attempted exactly once
    when its bulk step attempts, and never otherwise. -/
lemma attempted_count (ts : List Sub) (now : ℤ) (deliver : Sub → Bool) (s : Sub)
    (hnodup : (ts.map Sub.id).Nodup) (hs : s ∈ ts) :
    ((((ts.map (fun x => bulkNotifyStep now deliver x)).filter (fun p => p.2)).map
      (fun p => p.1.id)).count s.id) =
      (if (bulkNotifyStep now deliver s).2 then 1 else 0) := by
  induction ts with
  | nil => exact absurd hs (List.not_mem_nil s)
  | cons t ts ih =>
    rw [List.map_cons] at hnodup
    rw [List.map_cons, List.filter_cons]
    rcases List.mem_cons.mp hs with rfl | hmem
    · have hzero : ((((ts.map (fun x => bulkNotifyStep now deliver x)).filter
          (fun p => p.2)).map (fun p => p.1.id)).count s.id) = 0 :=
        List.count_eq_zero.mpr
          (attempted_not_mem ts now deliver s.id (List.nodup_cons.mp hnodup).1)
      cases hstep : (bulkNotifyStep now deliver s).2
      · simp [hstep, hzero]
      · simp [hstep, List.count_cons, hzero, bulkNotifyStep_id]
    · have htid : ¬ (t.id = s.id) := by
        intro he
        exact (List.nodup_cons.mp hnodup).1 (he ▸ List.mem_map.mpr ⟨s, hmem, rfl⟩)
      have ihv := ih (List.nodup_cons.mp hnodup).2 hmem
      cases hstep : (bulkNotifyStep now deliver t).2
      · simpa [hstep] using ihv
      · simpa [hstep, List.count_cons, bulkNotifyStep_id, htid] using ihv

/-- Per-subscription characterization of a successful POST /subscription run
    over an arbitrary store with unique ids: the row of a targeted
    subscription becomes the bulk step's result, its id is attempted exactly
    when the step attempts, and the store keeps its ids. -/
lemma notifyMany_per_sub (store : List Sub) (l : List String) (msg : String)
    (now : ℤ) (deliver : Sub → Bool) (store2 : List Sub) (attempted : List String)
    (s : Sub)
    (hnodup : (store.map Sub.id).Nodup)
    (hrun : notifyMany store (some l) (some msg) now deliver = .ok (store2, attempted))
    (hs : s ∈ store) (htarget : l = [] ∨ s.id ∈ l) :
    store2.find? (fun x => decide (x.id = s.id)) = some ((bulkNotifyStep now deliver s).1) ∧
    attempted.count s.id = (if (bulkNotifyStep now deliver s).2 then 1 else 0) ∧
    store2.map Sub.id = store.map Sub.id := by
  obtain ⟨h2, ha⟩ :=
    notifyMany_ok_elim store l msg now deliver store2 attempted hrun
  subst h2
  subst ha
  have hpres : ∀ x : Sub,
      ((if l.isEmpty || l.contains x.id then (bulkNotifyStep now deliver x).1 else x)).id
        = x.id := by
    intro x
    by_cases hx : (l.isEmpty || l.contains x.id) = true
    · rw [if_pos hx]
      exact bulkNotifyStep_id now deliver x
    · rw [if_neg hx]
  refine ⟨?_, ?_, ?_⟩
  · have hf := find?_map_sub store
      (fun x => if l.isEmpty || l.contains x.id then (bulkNotifyStep now deliver x).1 else x)
      s hpres hnodup hs
    rw [hf]
    show some (if (l.isEmpty || l.contains s.id) = true
        then (bulkNotifyStep now deliver s).1 else s) =
      some ((bulkNotifyStep now deliver s).1)
    rw [if_pos (targeted_cond l s htarget)]
  · exact attempted_count _ now deliver s (targeted_ids_nodup store l hnodup)
      (mem_targeted store l s hs htarget)
  · rw [List.map_map]
    exact List.map_congr_left (fun x _ => hpres x)

/-- C2 (amended): in any successful bulk-notification run over a store with
    unique subscription ids (the table's primary key), every targeted
    subscription behaves as follows.  Within 3 hours of its last-sent
    timestamp (the epoch when never sent) it is skipped: its row is unchanged
    and its id is not attempted -- whatever else is in the batch.  Outside the
    window its id is attempted exactly once, and its last-sent timestamp
    advances to the attempt time exactly when the delivery succeeds (a failed
    attempt leaves it unchanged, so only successful deliveries are throttled
    to one per rolling 3-hour window): after a successful attempt, any later
    run within 3 hours of it leaves the row unchanged and attempts nothing
    for it. -/
theorem c2_notify_throttle_amended (store : List Sub) (l : List String)
    (msg : String) (now : ℤ) (deliver : Sub → Bool) (store2 : List Sub)
    (attempted : List String) (s : Sub)
    (hnodup : (store.map Sub.id).Nodup)
    (hrun : notifyMany store (some l) (some msg) now deliver = .ok (store2, attempted))
    (hs : s ∈ store) (htarget : l = [] ∨ s.id ∈ l) :
    (secondsSinceLastSend now s < waitPeriodInSeconds →
      store2.find? (fun x => decide (x.id = s.id)) = some s ∧
      s.id ∉ attempted) ∧
    (¬ secondsSinceLastSend now s < waitPeriodInSeconds →
      attempted.count s.id = 1 ∧
      store2.find? (fun x => decide (x.id = s.id)) =
        some (if deliver s then { s with lastSent := some now } else s) ∧
      (deliver s = true →
        ∀ (now2 : ℤ) (store3 : List Sub) (attempted2 : List String),
          secondsSinceLastSend now2 { s with lastSent := some now } < waitPeriodInSeconds →
          notifyMany store2 (some l) (some msg) now2 deliver = .ok (store3, attempted2) →
          store3.find? (fun x => decide (x.id = s.id)) =
            some { s with lastSent := some now } ∧
          s.id ∉ attempted2)) := by
  obtain ⟨hfind, hcount, hids⟩ :=
    notifyMany_per_sub store l msg now deliver store2 attempted s hnodup hrun hs htarget
  constructor
  · intro hskip
    have h1 : (bulkNotifyStep now deliver s).1 = s := by rw [bulkNotifyStep_skip hskip]
    have h2 : (bulkNotifyStep now deliver s).2 = false := by rw [bulkNotifyStep_skip hskip]
    rw [h1] at hfind
    rw [h2] at hcount
    exact ⟨hfind, List.count_eq_zero.mp (by simpa using hcount)⟩
  · intro hnoskip
    have h1 : (bulkNotifyStep now deliver s).1 =
        (if deliver s then { s with lastSent := some now } else s) := by
      rw [bulkNotifyStep_attempt hnoskip]
    have h2 : (bulkNotifyStep now deliver s).2 = true := by
      rw [bulkNotifyStep_attempt hnoskip]
    rw [h1] at hfind
    rw [h2] at hcount
    refine ⟨by simpa using hcount, hfind, ?_⟩
    intro hdel now2 store3 attempted2 hwin hrun2
    rw [if_pos hdel] at hfind
    have hs2 : ({ s with lastSent := some now } : Sub) ∈ store2 :=
      List.mem_of_find?_eq_some hfind
    have hnodup2 : (store2.map Sub.id).Nodup := by
      rw [hids]
      exact hnodup
    obtain ⟨hfind3, hcount3, -⟩ :=
      notifyMany_per_sub store2 l msg now2 deliver store3 attempted2
        { s with lastSent := some now } hnodup2 hrun2 hs2 htarget
    have h3 : (bulkNotifyStep now2 deliver { s with lastSent := some now }).1 =
        { s with lastSent := some now } := by
      rw [bulkNotifyStep_skip hwin]
    have h4 : (bulkNotifyStep now2 deliver { s with lastSent := some now }).2 = false := by
      rw [bulkNotifyStep_skip hwin]
    rw [h3] at hfind3
    rw [h4] at hcount3
    exact ⟨hfind3, List.count_eq_zero.mp (by simpa using hcount3)⟩

/-- Witness for C2 (amended) on a two-subscription store of which only the
    first is targeted: first run at 10800000 ms with successful delivery
    (one attempt, timestamp advances, the untargeted row untouched), second
    run 1000 ms later (zero attempts, rows unchanged). -/
theorem c2_witness :
    (([(⟨"a", "da", none⟩ : Sub), ⟨"b", "db", none⟩].map Sub.id).Nodup) ∧
    ((⟨"a", "da", none⟩ : Sub) ∈ [(⟨"a", "da", none⟩ : Sub), ⟨"b", "db", none⟩]) ∧
    ((["a"] : List String) = [] ∨ (⟨"a", "da", none⟩ : Sub).id ∈ (["a"] : List String)) ∧
    (notifyMany [(⟨"a", "da", none⟩ : Sub), ⟨"b", "db", none⟩] (some ["a"]) (some "m")
        10800000 (fun _ => true) =
      .ok ([⟨"a", "da", some 10800000⟩, ⟨"b", "db", none⟩], ["a"])) ∧
    (¬ secondsSinceLastSend 10800000 ⟨"a", "da", none⟩ < waitPeriodInSeconds) ∧
    ((["a"] : List String).count ("a" : String) = 1) ∧
    ([(⟨"a", "da", some 10800000⟩ : Sub), ⟨"b", "db", none⟩].find?
        (fun x => decide (x.id = ("a" : String))) = some ⟨"a", "da", some 10800000⟩) ∧
    (secondsSinceLastSend 10801000 ⟨"a", "da", some 10800000⟩ < waitPeriodInSeconds) ∧
    (notifyMany [(⟨"a", "da", some 10800000⟩ : Sub), ⟨"b", "db", none⟩] (some ["a"])
        (some "m") 10801000 (fun _ => true) =
      .ok ([⟨"a", "da", some 10800000⟩, ⟨"b", "db", none⟩], [])) ∧
    (("a" : String) ∉ ([] : List String)) := by
  have hna : ¬ secondsSinceLastSend 10800000 ⟨"a", "da", none⟩ < waitPeriodInSeconds := by
    norm_num [secondsSinceLastSend, waitPeriodInSeconds]
  have hwin : secondsSinceLastSend 10801000 ⟨"a", "da", some 10800000⟩
      < waitPeriodInSeconds := by
    norm_num [secondsSinceLastSend, waitPeriodInSeconds]
  have hsa : bulkNotifyStep 10800000 (fun _ => true) ⟨"a", "da", none⟩ =
      (⟨"a", "da", some 10800000⟩, true) := by
    unfold bulkNotifyStep
    rw [if_neg hna]
    rfl
  have hsa2 : bulkNotifyStep 10801000 (fun _ => true) ⟨"a", "da", some 10800000⟩ =
      (⟨"a", "da", some 10800000⟩, false) := by
    unfold bulkNotifyStep
    rw [if_pos hwin]
  have hca : ((["a"] : List String).isEmpty ||
      (["a"] : List String).contains ("a" : String)) = true := by decide
  have hcb : ((["a"] : List String).isEmpty ||
      (["a"] : List String).contains ("b" : String)) = false := by decide
  have hfa : ([(⟨"a", "da", none⟩ : Sub), ⟨"b", "db", none⟩].filter
      (fun x => (["a"] : List String).contains x.id)) = [⟨"a", "da", none⟩] := by decide
  have hfa2 : ([(⟨"a", "da", some 10800000⟩ : Sub), ⟨"b", "db", none⟩].filter
      (fun x => (["a"] : List String).contains x.id)) = [⟨"a", "da", some 10800000⟩] := by
    decide
  have hrun : notifyMany [(⟨"a", "da", none⟩ : Sub), ⟨"b", "db", none⟩] (some ["a"])
      (some "m") 10800000 (fun _ => true) =
      .ok ([⟨"a", "da", some 10800000⟩, ⟨"b", "db", none⟩], ["a"]) := by
    simp only [notifyMany, hfa]
    simp [hsa, hca, hcb]
  have hrun2 : notifyMany [(⟨"a", "da", some 10800000⟩ : Sub), ⟨"b", "db", none⟩]
      (some ["a"]) (some "m") 10801000 (fun _ => true) =
      .ok ([⟨"a", "da", some 10800000⟩, ⟨"b", "db", none⟩], []) := by
    simp only [notifyMany, hfa2]
    simp [hsa2, hca, hcb]
  have h := c2_notify_throttle_amended [⟨"a", "da", none⟩, ⟨"b", "db", none⟩] ["a"] "m"
    10800000 (fun _ => true) [⟨"a", "da", some 10800000⟩, ⟨"b", "db", none⟩] ["a"]
    ⟨"a", "da", none⟩ (by decide) hrun (by decide) (Or.inr (by decide))
  have h2 := h.2 hna
  have h3 := h2.2.2 rfl 10801000 [⟨"a", "da", some 10800000⟩, ⟨"b", "db", none⟩] []
    hwin hrun2
  exact ⟨by decide, by decide, Or.inr (by decide), hrun, hna, h2.1, h2.2.1, hwin,
    hrun2, h3.2⟩

/-- C9 as stated is false at the omitted-ids case: with a subscription stored,
    POST /subscription without an ids array is rejected with a validation
    error (400) -- it does not target all stored subscriptions. -/
theorem c9_counterexample :
    selectTargets [(⟨"a", "d", none⟩ : Sub)] none = .error .validation ∧
    selectTargets [(⟨"a", "d", none⟩ : Sub)] none ≠ .ok [⟨"a", "d", none⟩] ∧
    notifyMany [(⟨"a", "d", none⟩ : Sub)] none (some "m") 0 (fun _ => true) =
      .error .validation := by
  refine ⟨rfl, ?_, rfl⟩
  intro h
  rw [show selectTargets [(⟨"a", "d", none⟩ : Sub)] none = .error .validation from rfl] at h
  exact Except.noConfusion h

/-- C9 (amended): when ids is a list, the bulk notification targets exactly
    the stored subscriptions whose ids appear in it, and all stored
    subscriptions when the list is empty; when ids is omitted (not an array),
    the request is rejected with a validation error and nothing is targeted. -/
theorem c9_targets_amended (store : List Sub) (l : List String) (s : Sub)
    (tgt : List Sub) (hsel : selectTargets store (some l) = .ok tgt) :
    (s ∈ tgt ↔ s ∈ store ∧ (l = [] ∨ s.id ∈ l)) ∧
    selectTargets store none = .error .validation := by
  refine ⟨?_, rfl⟩
  have htgt : tgt = if l.isEmpty then store else store.filter (fun x => l.contains x.id) := by
    unfold selectTargets at hsel
    rw [Except.ok.injEq] at hsel
    exact hsel.symm
  subst htgt
  by_cases hl : l = []
  · subst hl
    simp
  · have hlne : l.isEmpty = false := by
      cases l with
      | nil => exact absurd rfl hl
      | cons a as => rfl
    rw [hlne]
    simp only [Bool.false_eq_true, if_false, List.mem_filter]
    constructor
    · rintro ⟨hmem, hcont⟩
      exact ⟨hmem, Or.inr (by simpa using hcont)⟩
    · rintro ⟨hmem, hor⟩
      rcases hor with h | h
      · exact absurd h hl
      · exact ⟨hmem, by simpa using h⟩

/-- Witness for C9 (amended) at a concrete two-subscription store with
    ids = the list containing only the first id. -/
theorem c9_witness :
    (selectTargets [(⟨"a", "da", none⟩ : Sub), ⟨"b", "db", none⟩] (some ["a"]) =
      .ok [⟨"a", "da", none⟩]) ∧
    ((⟨"a", "da", none⟩ : Sub) ∈ [(⟨"a", "da", none⟩ : Sub)] ↔
      (⟨"a", "da", none⟩ : Sub) ∈ [(⟨"a", "da", none⟩ : Sub), ⟨"b", "db", none⟩] ∧
        ((["a"] : List String) = [] ∨ ("a" : String) ∈ (["a"] : List String))) ∧
    selectTargets [(⟨"a", "da", none⟩ : Sub), ⟨"b", "db", none⟩] none =
      .error .validation :=
  ⟨rfl,
    (c9_targets_amended [⟨"a", "da", none⟩, ⟨"b", "db", none⟩] ["a"]
      ⟨"a", "da", none⟩ [⟨"a", "da", none⟩] rfl).1,
    (c9_targets_amended [⟨"a", "da", none⟩, ⟨"b", "db", none⟩] ["a"]
      ⟨"a", "da", none⟩ [⟨"a", "da", none⟩] rfl).2⟩

end SmartGarden
